import Mathlib

/-!
# Verification of `optional` (src/optional.go)

A shallow embedding of the generic optional container `Value[T]` and of its
operations, followed by the properties proved about them.

Conventions of the embedding:

* A Go type parameter `T any` is a Lean `Type` with an `Inhabited` instance;
  `default` plays the part of the Go zero value of `T`.
* The struct `Value[T]` is a Lean structure with the same two fields.
* Methods with a value receiver are pure functions of the receiver.
* Methods with a pointer receiver (`Reset`, `Take`, `Replace`) are functions
  of the state the pointer refers to: they return the state left behind,
  paired with the returned container when there is one.
* A Go callback may have side effects. Next to the pure reading of `Map` and
  `OrElse` there is a state-passing reading (`MapS`, `OrElseS`) in which the
  callback threads a state of type `σ` and the body performs the callback
  exactly where the source does.
-/

namespace optional

/-! ## Data model -/

/-- Value is an optional value containing a value of type `T` inside
(src/optional.go, lines 41-44). -/
structure Value (T : Type) where
  value : T
  valid : Bool
deriving DecidableEq, Repr

variable {T U σ : Type}

/-! ## Constructors -/

/-- Some returns an optional value that has the provided inner value
(lines 15-20). -/
def Some (value : T) : Value T :=
  { value := value, valid := true }

/-- None returns an optional value that has no inner value (lines 23-25):
the composite literal `Value[T]{}` zero-initialises both fields. -/
def None [Inhabited T] : Value T :=
  { value := default, valid := false }

/-- New constructs a new optional value (lines 6-12). -/
def New [Inhabited T] (value : T) (valid : Bool) : Value T :=
  if valid then
    Some value
  else
    None

/-! ## Inspection -/

/-- Unwrap returns the inner value and the presence flag (lines 47-49). -/
def Value.Unwrap (o : Value T) : T × Bool :=
  (o.value, o.valid)

/-- IsSome returns true if the optional value has an inner value
(lines 52-54). -/
def Value.IsSome (o : Value T) : Bool :=
  o.valid

/-- IsNone returns true if the optional value has no inner value
(lines 57-59). -/
def Value.IsNone (o : Value T) : Bool :=
  !o.IsSome

/-! ## Transformation -/

/-- Map transforms an optional `Value T` to an optional `Value U` using the
given function (lines 30-36); pure reading of the callback. -/
def Map [Inhabited U] (v : Value T) (f : T → U) : Value U :=
  if v.IsSome then
    Some (f v.value)
  else
    None

/-- Map with an effectful callback (lines 30-36): `f` reads and updates a
state `σ`; the state is threaded through the one call site of `f`. -/
def MapS [Inhabited U] (v : Value T) (f : T → σ → U × σ) (s : σ) : Value U × σ :=
  if v.IsSome then
    let r := f v.value s
    (Some r.1, r.2)
  else
    (None, s)

/-! ## Fallback composition -/

/-- Or returns the value if it is Some, or the other value (lines 62-68). -/
def Value.Or (o other : Value T) : Value T :=
  if o.IsSome then
    o
  else
    other

/-- OrSome returns the inner value if present, otherwise the provided value
(lines 71-77). -/
def Value.OrSome (o : Value T) (value : T) : T :=
  if o.IsSome then
    o.value
  else
    value

/-- OrZero returns the stored field (lines 80-82). -/
def Value.OrZero (o : Value T) : T :=
  o.value

/-- OrElse returns `Some value` if the inner value is present, otherwise it
calls the provided function and returns its result (lines 85-91); pure
reading of the callback. -/
def Value.OrElse (o : Value T) (value : Unit → Value T) : Value T :=
  if o.IsSome then
    Some o.value
  else
    value ()

/-- OrElse with an effectful callback (lines 85-91): `value` reads and
updates a state `σ`; the state is threaded through its one call site. -/
def Value.OrElseS (o : Value T) (value : σ → Value T × σ) (s : σ) : Value T × σ :=
  if o.IsSome then
    (Some o.value, s)
  else
    value s

/-! ## In-place mutation

The receiver `o *Value[T]` is modelled by the state `*o`. -/

/-- Reset resets the optional value to None (lines 94-96); the result is the
state left in `*o`. -/
def Value.Reset [Inhabited T] (_o : Value T) : Value T :=
  None

/-- Take returns a copy of the optional value and resets it to None
(lines 99-104); the result is `(returned copy, state left in *o)`. -/
def Value.Take [Inhabited T] (o : Value T) : Value T × Value T :=
  let result := o
  (result, None)

/-- Replace returns a copy of the optional value and resets it to
`Some value` (lines 107-112); the result is
`(returned copy, state left in *o)`. -/
def Value.Replace (o : Value T) (value : T) : Value T × Value T :=
  let result := o
  (result, Some value)

/-! ## Data-model invariant -/

/-- The data-model invariant: an absent container stores the zero value. -/
def Inv [Inhabited T] (o : Value T) : Prop :=
  o.valid = false → o.value = default

instance [Inhabited T] [DecidableEq T] (o : Value T) : Decidable (Inv o) :=
  inferInstanceAs (Decidable (o.valid = false → o.value = default))

/-- A callback that counts its calls: every call raises the counter by one. -/
def Counts (f : T → ℕ → U × ℕ) : Prop :=
  ∀ t n, (f t n).2 = n + 1

/-- A nullary callback that counts its calls. -/
def Counts0 (g : ℕ → U × ℕ) : Prop :=
  ∀ n, (g n).2 = n + 1

/-- The counting instrumentation of a pure function. -/
def counted (f : T → U) : T → ℕ → U × ℕ :=
  fun t n => (f t, n + 1)

/-- The counting instrumentation of a pure nullary function. -/
def counted0 (g : Unit → U) : ℕ → U × ℕ :=
  fun n => (g (), n + 1)

/-! ## Basic facts shared by the proofs -/

theorem inv_Some [Inhabited T] (v : T) : Inv (Some v) := by
  intro h
  simp [Some] at h

theorem inv_None [Inhabited T] : Inv (None : Value T) := by
  intro _
  rfl

theorem inv_of_valid [Inhabited T] (o : Value T) (h : o.valid = true) : Inv o := by
  intro h0
  rw [h] at h0
  cases h0

theorem counted_counts (f : T → U) : Counts (counted f) := by
  intro t n
  rfl

theorem counted0_counts (g : Unit → U) : Counts0 (counted0 g) := by
  intro n
  rfl

/-- The state-passing reading of Map agrees with the pure one on the
instrumentation of a pure function. -/
theorem MapS_counted_fst [Inhabited U] (v : Value T) (f : T → U) (n : ℕ) :
    (MapS v (counted f) n).1 = Map v f := by
  unfold MapS Map counted
  cases v.IsSome <;> rfl

/-- The state-passing reading of OrElse agrees with the pure one on the
instrumentation of a pure fallback. -/
theorem OrElseS_counted_fst (o : Value T) (g : Unit → Value T) (n : ℕ) :
    (o.OrElseS (counted0 g) n).1 = o.OrElse g := by
  unfold Value.OrElseS Value.OrElse counted0
  cases o.IsSome <;> rfl

/-! ## Invariant preservation -/

/-- C1: the data-model invariant (absent implies the stored value is the zero
value) holds for None, New v false, Some v and New v true, and Map, Or,
OrElse (with a fallback returning an invariant-satisfying container), Reset,
Take and Replace return and leave behind containers that satisfy it whenever
their container inputs do. -/
theorem invariant_holds_for_every_produced_container (T U : Type)
    [Inhabited T] [Inhabited U] :
    Inv (None : Value T)
    ∧ (∀ v : T, Inv (New v false))
    ∧ (∀ v : T, Inv (Some v))
    ∧ (∀ v : T, Inv (New v true))
    ∧ (∀ (o : Value T) (f : T → U), Inv o → Inv (Map o f))
    ∧ (∀ o other : Value T, Inv o → Inv other → Inv (o.Or other))
    ∧ (∀ (o : Value T) (g : Unit → Value T), Inv o → Inv (g ()) → Inv (o.OrElse g))
    ∧ (∀ o : Value T, Inv o → Inv o.Reset)
    ∧ (∀ o : Value T, Inv o → Inv o.Take.1 ∧ Inv o.Take.2)
    ∧ (∀ (o : Value T) (v : T), Inv o → Inv (o.Replace v).1 ∧ Inv (o.Replace v).2) := by
  refine ⟨inv_None, fun v => inv_None, inv_Some, fun v => inv_Some v, ?_, ?_, ?_, ?_, ?_, ?_⟩
  · intro o f _
    unfold Map
    cases o.IsSome
    · exact inv_None
    · exact inv_Some _
  · intro o other ho hb
    unfold Value.Or
    cases o.IsSome
    · exact hb
    · exact ho
  · intro o g _ hg
    unfold Value.OrElse
    cases o.IsSome
    · exact hg
    · exact inv_Some _
  · intro o _
    exact inv_None
  · intro o ho
    exact ⟨ho, inv_None⟩
  · intro o v ho
    exact ⟨ho, inv_Some v⟩

/-- Witness for C1 at `T = U = ℕ`: the absent container with stored zero
satisfies the invariant, and so do the containers Or, Take and Replace
produce from it. -/
theorem invariant_holds_for_every_produced_container_witness :
    Inv (None : Value ℕ)
    ∧ Inv ((None : Value ℕ).Or (Some 5))
    ∧ Inv (Map (Some 5) (fun n : ℕ => n + 1))
    ∧ (Inv (Value.Take (Some 5)).1 ∧ Inv (Value.Take (Some 5)).2)
    ∧ (Inv ((None : Value ℕ).Replace 7).1 ∧ Inv ((None : Value ℕ).Replace 7).2) :=
  have h := invariant_holds_for_every_produced_container ℕ ℕ
  ⟨h.1,
   h.2.2.2.2.2.1 None (Some 5) (by decide) (by decide),
   h.2.2.2.2.1 (Some 5) (fun n => n + 1) (by decide),
   h.2.2.2.2.2.2.2.2.1 (Some 5) (by decide),
   h.2.2.2.2.2.2.2.2.2 None 7 (by decide)⟩

/-! ## Constructors and inspection -/

/-- C2: for every container o that satisfies the data-model invariant,
OrZero returns the stored value if o is present and the zero value of T if o
is absent. OrZero is a total function into T, so it never signals failure. -/
theorem OrZero_of_inv (T : Type) [Inhabited T] (o : Value T) (h : Inv o) :
    (o.IsSome = true → o.OrZero = o.value)
    ∧ (o.IsSome = false → o.OrZero = default) := by
  refine ⟨fun _ => rfl, fun habs => ?_⟩
  exact h habs

/-- Witness for C2 on a present and on an absent container of naturals. -/
theorem OrZero_of_inv_witness :
    (Inv (Some 5 : Value ℕ) ∧ (Some 5 : Value ℕ).OrZero = 5)
    ∧ (Inv (None : Value ℕ) ∧ (None : Value ℕ).OrZero = 0) :=
  ⟨⟨by decide, (OrZero_of_inv ℕ (Some 5) (by decide)).1 rfl⟩,
   ⟨by decide, (OrZero_of_inv ℕ None (by decide)).2 rfl⟩⟩

/-- C3: for every value v of T, Some(v).IsSome() is true and
Some(v).Unwrap() returns (v, true). -/
theorem Some_IsSome_and_Unwrap (T : Type) (v : T) :
    (Some v).IsSome = true ∧ (Some v).Unwrap = (v, true) :=
  ⟨rfl, rfl⟩

/-- C4: for every type T, None().IsSome() is false and None().Unwrap()
returns (zero value of T, false). -/
theorem None_IsSome_and_Unwrap (T : Type) [Inhabited T] :
    (None : Value T).IsSome = false
    ∧ (None : Value T).Unwrap = ((default : T), false) :=
  ⟨rfl, rfl⟩

/-- C5: for every value v, New(v, true) equals Some(v), and New(v, false)
equals None() regardless of v. -/
theorem New_true_eq_Some_and_New_false_eq_None (T : Type) [Inhabited T] (v : T) :
    New v true = Some v ∧ New v false = (None : Value T) :=
  ⟨rfl, rfl⟩

/-! ## Map -/

/-- C6: for every function f and container o, if o is present with stored
value v then Map(o, f) equals Some(f(v)); if o is absent then Map(o, f)
equals None of the target type. In particular Map(Some(v), identity) equals
Some(v) for every v. -/
theorem Map_present_absent_identity (T U : Type) [Inhabited T] [Inhabited U]
    (f : T → U) (o : Value T) :
    (∀ v : T, o.IsSome = true → o.value = v → Map o f = Some (f v))
    ∧ (o.IsSome = false → Map o f = (None : Value U))
    ∧ (∀ v : T, Map (Some v) (fun x => x) = Some v) := by
  refine ⟨?_, ?_, fun v => rfl⟩
  · intro v hp hv
    subst hv
    unfold Map
    rw [hp]
    rfl
  · intro ha
    unfold Map
    rw [ha]
    rfl

/-- Witness for C6: a present and an absent container of naturals mapped
through the successor function. -/
theorem Map_present_absent_identity_witness :
    Map (Some 5) (fun n : ℕ => n + 1) = Some 6
    ∧ Map (None : Value ℕ) (fun n : ℕ => n + 1) = None
    ∧ Map ({ value := 9, valid := false } : Value ℕ) (fun n : ℕ => n + 1) = None :=
  ⟨(Map_present_absent_identity ℕ ℕ (fun n => n + 1) (Some 5)).1 5 rfl rfl,
   (Map_present_absent_identity ℕ ℕ (fun n => n + 1) None).2.1 rfl,
   (Map_present_absent_identity ℕ ℕ (fun n => n + 1) { value := 9, valid := false }).2.1 rfl⟩

/-- C7: modelling f as a function that increments a call counter, Map(o, f)
leaves the counter unchanged when o is absent and increments it by exactly
one when o is present; so f is invoked at most once, and only on a present
container. -/
theorem MapS_call_count (T U : Type) [Inhabited U] (o : Value T)
    (f : T → ℕ → U × ℕ) (hf : Counts f) (n : ℕ) :
    (o.IsSome = false → (MapS o f n).2 = n)
    ∧ (o.IsSome = true → (MapS o f n).2 = n + 1)
    ∧ (MapS o f n).2 ≤ n + 1
    ∧ ((MapS o f n).2 ≠ n → o.IsSome = true) := by
  unfold MapS
  cases hs : o.IsSome
  · simp
  · simp [hf o.value n]

/-- Witness for C7: the counting instrumentation of the successor function,
run from counter 0 on a present and on an absent container. -/
theorem MapS_call_count_witness :
    Counts (counted (fun n : ℕ => n + 1))
    ∧ (MapS (Some 5) (counted (fun n : ℕ => n + 1)) 0).2 = 1
    ∧ (MapS (None : Value ℕ) (counted (fun n : ℕ => n + 1)) 0).2 = 0 :=
  ⟨counted_counts _,
   (MapS_call_count ℕ ℕ (Some 5) (counted (fun n => n + 1)) (counted_counts _) 0).2.1 rfl,
   (MapS_call_count ℕ ℕ None (counted (fun n => n + 1)) (counted_counts _) 0).1 rfl⟩

/-! ## Or and OrElse -/

/-- C8: for all containers a and b, if a is present then a.Or(b) equals a;
if a is absent then a.Or(b) equals b. -/
theorem Or_present_absent (T : Type) (a b : Value T) :
    (a.IsSome = true → a.Or b = a) ∧ (a.IsSome = false → a.Or b = b) := by
  unfold Value.Or
  constructor <;> intro h <;> rw [h] <;> rfl

/-- Witness for C8 on containers of naturals. -/
theorem Or_present_absent_witness :
    (Some 5 : Value ℕ).Or (Some 7) = Some 5
    ∧ (None : Value ℕ).Or (Some 7) = Some 7
    ∧ ({ value := 9, valid := false } : Value ℕ).Or None = None :=
  ⟨(Or_present_absent ℕ (Some 5) (Some 7)).1 rfl,
   (Or_present_absent ℕ None (Some 7)).2 rfl,
   (Or_present_absent ℕ { value := 9, valid := false } None).2 rfl⟩

/-- C9: for every container a and fallback function g, if a is present with
stored value v then a.OrElse(g) equals Some(v); if a is absent then
a.OrElse(g) equals g(). -/
theorem OrElse_present_absent (T : Type) (a : Value T) (g : Unit → Value T) :
    (∀ v : T, a.IsSome = true → a.value = v → a.OrElse g = Some v)
    ∧ (a.IsSome = false → a.OrElse g = g ()) := by
  unfold Value.OrElse
  constructor
  · intro v h hv
    rw [h, hv]
    rfl
  · intro h
    rw [h]
    rfl

/-- Witness for C9 on containers of naturals. -/
theorem OrElse_present_absent_witness :
    (Some 5 : Value ℕ).OrElse (fun _ => Some 7) = Some 5
    ∧ (None : Value ℕ).OrElse (fun _ => Some 7) = Some 7 :=
  ⟨(OrElse_present_absent ℕ (Some 5) (fun _ => Some 7)).1 5 rfl rfl,
   (OrElse_present_absent ℕ None (fun _ => Some 7)).2 rfl⟩

/-- C10: modelling the fallback as a function that increments a call
counter, a.OrElse(fallback) leaves the counter at 0 whenever a is present
(the fallback is never evaluated) and raises it to exactly 1 whenever a is
absent; the same holds from any starting count n. -/
theorem OrElseS_call_count (T : Type) (a : Value T)
    (fallback : ℕ → Value T × ℕ) (hf : Counts0 fallback) :
    (a.IsSome = true → (a.OrElseS fallback 0).2 = 0)
    ∧ (a.IsSome = false → (a.OrElseS fallback 0).2 = 1)
    ∧ (∀ n, a.IsSome = true → (a.OrElseS fallback n).2 = n)
    ∧ (∀ n, a.IsSome = false → (a.OrElseS fallback n).2 = n + 1) := by
  have hp : ∀ n, a.IsSome = true → (a.OrElseS fallback n).2 = n := by
    intro n h
    unfold Value.OrElseS
    rw [h]
    rfl
  have ha : ∀ n, a.IsSome = false → (a.OrElseS fallback n).2 = n + 1 := by
    intro n h
    unfold Value.OrElseS
    rw [h]
    exact hf n
  exact ⟨hp 0, ha 0, hp, ha⟩

/-- Witness for C10: the counting instrumentation of a constant fallback,
run from counter 0 on a present and on an absent container. -/
theorem OrElseS_call_count_witness :
    Counts0 (counted0 (fun _ => (Some 7 : Value ℕ)))
    ∧ ((Some 5 : Value ℕ).OrElseS (counted0 (fun _ => Some 7)) 0).2 = 0
    ∧ ((None : Value ℕ).OrElseS (counted0 (fun _ => Some 7)) 0).2 = 1 :=
  ⟨counted0_counts _,
   (OrElseS_call_count ℕ (Some 5) (counted0 (fun _ => Some 7)) (counted0_counts _)).1 rfl,
   (OrElseS_call_count ℕ None (counted0 (fun _ => Some 7)) (counted0_counts _)).2.1 rfl⟩

/-! ## Structural facts shared by the later proofs -/

/-- A present container is the one Some builds from its stored value. -/
theorem eq_Some_of_IsSome (o : Value T) (h : o.IsSome = true) : o = Some o.value := by
  cases o with
  | mk value valid =>
    simp only [Value.IsSome] at h
    subst h
    rfl

/-- An absent container that satisfies the invariant is None. -/
theorem eq_None_of_inv [Inhabited T] (o : Value T) (hi : Inv o) (h : o.IsSome = false) :
    o = None := by
  cases o with
  | mk value valid =>
    simp only [Value.IsSome] at h
    subst h
    have hv : value = default := hi rfl
    subst hv
    rfl

/-! ## OrSome -/

/-- C11: for every container o and fallback value d, o.OrSome(d) returns the
stored value (ignoring d) if o is present, and returns exactly d if o is
absent. -/
theorem OrSome_present_absent (T : Type) (o : Value T) (d : T) :
    (o.IsSome = true → o.OrSome d = o.value)
    ∧ (o.IsSome = false → o.OrSome d = d) := by
  unfold Value.OrSome
  constructor <;> intro h <;> rw [h] <;> rfl

/-- Witness for C11 on containers of naturals, one of them absent with a
stored value that is not the zero value. -/
theorem OrSome_present_absent_witness :
    (Some 5 : Value ℕ).OrSome 42 = 5
    ∧ (None : Value ℕ).OrSome 42 = 42
    ∧ ({ value := 9, valid := false } : Value ℕ).OrSome 42 = 42 :=
  ⟨(OrSome_present_absent ℕ (Some 5) 42).1 rfl,
   (OrSome_present_absent ℕ None 42).2 rfl,
   (OrSome_present_absent ℕ { value := 9, valid := false } 42).2 rfl⟩

/-! ## In-place mutation -/

/-- C12: for every prior state of a container x, after x.Reset() the
container equals None(), so x.IsSome() is false and x.Unwrap() returns
(zero value, false): the previously held value is discarded. -/
theorem Reset_leaves_None (T : Type) [Inhabited T] (x : Value T) :
    x.Reset = None
    ∧ x.Reset.IsSome = false
    ∧ x.Reset.Unwrap = ((default : T), false) :=
  ⟨rfl, rfl, rfl⟩

/-- C13: for every container state x, x.Take() returns a container equal to
the state of x before the call and leaves x equal to None(). In particular,
if x was present with value v then the result unwraps to (v, true) and
afterwards x.IsSome() is false. -/
theorem Take_returns_state_and_leaves_None (T : Type) [Inhabited T] (x : Value T) :
    x.Take.1 = x
    ∧ x.Take.2 = None
    ∧ (∀ v : T, x.IsSome = true → x.value = v →
        x.Take.1.Unwrap = (v, true) ∧ x.Take.2.IsSome = false) := by
  refine ⟨rfl, rfl, ?_⟩
  intro v hp hv
  refine ⟨?_, rfl⟩
  simp only [Value.IsSome] at hp
  simp only [Value.Take, Value.Unwrap, hp, hv]

/-- Witness for C13: taking from a present container of naturals. -/
theorem Take_returns_state_and_leaves_None_witness :
    (Some 7 : Value ℕ).Take.1.Unwrap = (7, true)
    ∧ (Some 7 : Value ℕ).Take.2.IsSome = false :=
  (Take_returns_state_and_leaves_None ℕ (Some 7)).2.2 7 rfl rfl

/-- C14: for every container state x and value v2, x.Replace(v2) returns a
container equal to the state of x before the call and leaves x equal to
Some(v2). In particular, if x was present with v1 the result unwraps to
(v1, true); if x was absent the result is absent; in both cases x.Unwrap()
afterwards returns (v2, true). -/
theorem Replace_returns_state_and_leaves_Some (T : Type) (x : Value T) (v2 : T) :
    (x.Replace v2).1 = x
    ∧ (x.Replace v2).2 = Some v2
    ∧ (∀ v1 : T, x.IsSome = true → x.value = v1 → (x.Replace v2).1.Unwrap = (v1, true))
    ∧ (x.IsSome = false → (x.Replace v2).1.IsSome = false)
    ∧ (x.Replace v2).2.Unwrap = (v2, true) := by
  refine ⟨rfl, rfl, ?_, ?_, rfl⟩
  · intro v1 hp hv
    simp only [Value.IsSome] at hp
    simp only [Value.Replace, Value.Unwrap, hp, hv]
  · intro ha
    exact ha

/-- Witness for C14: replacing in a present and in an absent container of
naturals. -/
theorem Replace_returns_state_and_leaves_Some_witness :
    ((Some 1 : Value ℕ).Replace 2).1.Unwrap = (1, true)
    ∧ ((None : Value ℕ).Replace 7).1.IsSome = false
    ∧ ((None : Value ℕ).Replace 7).2.Unwrap = (7, true) :=
  ⟨(Replace_returns_state_and_leaves_Some ℕ (Some 1) 2).2.2.1 1 rfl rfl,
   (Replace_returns_state_and_leaves_Some ℕ None 7).2.2.2.1 rfl,
   (Replace_returns_state_and_leaves_Some ℕ None 7).2.2.2.2⟩

/-! ## Relations between the inspection operations -/

/-- C15: for every container o, with no assumption on the invariant,
o.OrZero() equals the first component of o.Unwrap(). -/
theorem OrZero_eq_Unwrap_fst (T : Type) (o : Value T) :
    o.OrZero = o.Unwrap.1 :=
  rfl

/-- C16: for every container o, o.IsNone() equals the logical negation of
o.IsSome(), and o.IsSome() equals the presence flag returned as the second
component of o.Unwrap(). -/
theorem IsNone_eq_not_IsSome_and_IsSome_eq_Unwrap_snd (T : Type) (o : Value T) :
    o.IsNone = (!o.IsSome) ∧ o.IsSome = o.Unwrap.2 :=
  ⟨rfl, rfl⟩

/-! ## Algebraic laws -/

/-- C17: for all containers o and b, with no assumption on the invariant,
o.OrElse(func() { return b }) equals o.Or(b): the lazy and the eager
fallback agree on their result although the present branch of OrElse
rebuilds Some(o.value). -/
theorem OrElse_const_eq_Or (T : Type) (o b : Value T) :
    o.OrElse (fun _ => b) = o.Or b := by
  unfold Value.OrElse Value.Or
  cases h : o.IsSome
  · rfl
  · simp only [if_true]
    exact (eq_Some_of_IsSome o h).symm

/-- C18: round trip between a container and its (value, flag) pair: for
every container o satisfying the data-model invariant, New applied to the
two results of o.Unwrap() equals o; and for every v and flag b, Unwrap of
New(v, b) returns (v, true) when b is true and (zero value, false) when b is
false. -/
theorem New_Unwrap_round_trip (T : Type) [Inhabited T] :
    (∀ o : Value T, Inv o → New o.Unwrap.1 o.Unwrap.2 = o)
    ∧ (∀ (v : T) (b : Bool),
        (b = true → (New v b).Unwrap = (v, true))
        ∧ (b = false → (New v b).Unwrap = ((default : T), false))) := by
  constructor
  · intro o hi
    unfold New Value.Unwrap
    cases h : o.valid
    · exact (eq_None_of_inv o hi h).symm
    · exact (eq_Some_of_IsSome o h).symm
  · intro v b
    constructor <;> intro h <;> subst h <;> rfl

/-- Witness for C18 on containers of naturals. -/
theorem New_Unwrap_round_trip_witness :
    (Inv (None : Value ℕ)
      ∧ New (None : Value ℕ).Unwrap.1 (None : Value ℕ).Unwrap.2 = None)
    ∧ (Inv (Some 5 : Value ℕ)
      ∧ New (Some 5 : Value ℕ).Unwrap.1 (Some 5 : Value ℕ).Unwrap.2 = Some 5)
    ∧ (New (5 : ℕ) true).Unwrap = (5, true)
    ∧ (New (5 : ℕ) false).Unwrap = (0, false) :=
  ⟨⟨by decide, (New_Unwrap_round_trip ℕ).1 None (by decide)⟩,
   ⟨by decide, (New_Unwrap_round_trip ℕ).1 (Some 5) (by decide)⟩,
   ((New_Unwrap_round_trip ℕ).2 5 true).1 rfl,
   ((New_Unwrap_round_trip ℕ).2 5 false).2 rfl⟩

/-- C19: Or forms a monoid on containers with None() as identity: for all
a, b, c, a.Or(b).Or(c) equals a.Or(b.Or(c)); None().Or(b) equals b for every
b; and a.Or(None()) equals a for every a satisfying the data-model
invariant. -/
theorem Or_monoid_laws (T : Type) [Inhabited T] :
    (∀ a b c : Value T, (a.Or b).Or c = a.Or (b.Or c))
    ∧ (∀ b : Value T, (None : Value T).Or b = b)
    ∧ (∀ a : Value T, Inv a → a.Or None = a) := by
  refine ⟨?_, fun b => rfl, ?_⟩
  · intro a b c
    cases h : a.IsSome
    · simp only [Value.Or, h, Bool.false_eq_true, if_false]
    · simp only [Value.Or, h, if_true]
  · intro a hi
    cases h : a.IsSome
    · simp only [Value.Or, h, Bool.false_eq_true, if_false]
      exact (eq_None_of_inv a hi h).symm
    · simp only [Value.Or, h, if_true]

/-- Witness for C19 on containers of naturals. -/
theorem Or_monoid_laws_witness :
    (Inv (None : Value ℕ) ∧ (None : Value ℕ).Or None = None)
    ∧ (Inv (Some 5 : Value ℕ) ∧ (Some 5 : Value ℕ).Or None = Some 5)
    ∧ ((None : Value ℕ).Or (Some 1)).Or (Some 2) = (None : Value ℕ).Or ((Some 1).Or (Some 2)) :=
  ⟨⟨by decide, (Or_monoid_laws ℕ).2.2 None (by decide)⟩,
   ⟨by decide, (Or_monoid_laws ℕ).2.2 (Some 5) (by decide)⟩,
   (Or_monoid_laws ℕ).1 None (Some 1) (Some 2)⟩

/-- C20: Map respects composition: for every container o and pure functions
f : T → U and g : U → W, Map(Map(o, f), g) equals Map(o, g after f), for
present and absent o alike. -/
theorem Map_comp (T U W : Type) [Inhabited U] [Inhabited W]
    (o : Value T) (f : T → U) (g : U → W) :
    Map (Map o f) g = Map o (fun x => g (f x)) := by
  unfold Map
  cases o.IsSome <;> rfl

end optional
